import Mathlib

/-!
Verification development for a book-metadata pipeline (`src/app.py`):
an Aladin catalog client (`search_books`, `get_book_info`) with a
JSON-to-XML format fallback, a date normalizer (`format_pub_date`),
a Notion database-id normalizer (`extract_notion_database_id`) and a
record writer (`save_to_notion`).  Every definition below is a shallow
embedding of the corresponding Python function; network and Notion
effects are modelled by explicit oracles, and each issued HTTP request
is recorded in a trace so that call counts can be reasoned about.
-/

namespace BookApp

/-! ## Generic string / list helpers (Python semantics) -/

/-- Numeric value of a decimal digit character. -/
def digitVal (c : Char) : Nat := c.toNat - 48

/-- Python `str.strip()`: drop leading and trailing whitespace. -/
def pyStrip (l : List Char) : List Char :=
  ((l.dropWhile Char.isWhitespace).reverse.dropWhile Char.isWhitespace).reverse

/-- First token of Python `s.split()` (split on whitespace runs);
`none` when the string has no token (then `[0]` raises `IndexError`). -/
def firstTok (l : List Char) : Option (List Char) :=
  match l.dropWhile Char.isWhitespace with
  | [] => none
  | c :: rest => some ((c :: rest).takeWhile (fun x => !x.isWhitespace))

/-- `pat` occurs at the start of `s`. -/
def startsList (pat s : List Char) : Bool :=
  match pat, s with
  | [], _ => true
  | _ :: _, [] => false
  | a :: as, b :: bs => a == b && startsList as bs

/-- Python `pat in s` (substring containment). -/
def infixList (pat : List Char) : List Char → Bool
  | [] => pat.isEmpty
  | c :: rest => startsList pat (c :: rest) || infixList pat rest

/-- Python `pat in s` on strings. -/
def pyIn (pat s : String) : Bool := infixList pat.data s.data

/-- Python `str.split(sep)` for a one-character separator. -/
def splitAtChar (sep : Char) : List Char → List (List Char)
  | [] => [[]]
  | c :: rest =>
    let r := splitAtChar sep rest
    if c == sep then [] :: r
    else
      match r with
      | [] => [[c]]
      | h :: t => (c :: h) :: t

/-- Association list modelling a Python `dict` built by successive
`d[k] = v` assignments (the later assignment wins, hence the
`reverse` before `lookup`). -/
abbrev Dict := List (String × String)

/-- Python `d.get(k)`. -/
def dictGet (d : Dict) (k : String) : Option String := d.reverse.lookup k

/-- Python `d.get(k, dflt)`. -/
def dictGetD (d : Dict) (k dflt : String) : String := (dictGet d k).getD dflt

/-- Python truthiness of `d.get(k)` for string values:
true iff the key is present and its value is non-empty. -/
def pyTruthy (o : Option String) : Bool :=
  match o with
  | some s => s != ""
  | none => false

/-- Python `x or y` for `x = d.get(k)` (an optional string) and a
string default `y`. -/
def pyOr (o : Option String) (y : String) : String :=
  match o with
  | some s => if s != "" then s else y
  | none => y

/-! ## Date normalization (`format_pub_date`, lines 550-569)

`datetime.strptime` is modelled by the regexes CPython's `_strptime`
uses: `%Y` is exactly four digits, `%m` is `1[0-2]|0[1-9]|[1-9]`,
`%d` is `3[01]|[12]\d|0[1-9]|[1-9]`, alternatives tried left to
right, and any unconsumed input raises `ValueError`.  The resulting
`datetime` constructor validates the calendar date. -/

structure DateYMD where
  y : Nat
  m : Nat
  d : Nat
deriving DecidableEq, Repr

def leapYear (y : Nat) : Bool :=
  (y % 4 == 0 && y % 100 != 0) || y % 400 == 0

def daysInMonth (y m : Nat) : Nat :=
  if m == 2 then (if leapYear y then 29 else 28)
  else if m == 4 || m == 6 || m == 9 || m == 11 then 30
  else 31

/-- `datetime(y, m, d)` constructor validity (`MINYEAR = 1`,
`MAXYEAR = 9999`). -/
def validDate (y m d : Nat) : Bool :=
  1 ≤ y && y ≤ 9999 && 1 ≤ m && m ≤ 12 && 1 ≤ d && d ≤ daysInMonth y m

def mkDate (y m d : Nat) : Option DateYMD :=
  if validDate y m d then some ⟨y, m, d⟩ else none

/-- `%m`: first alternative of `1[0-2]|0[1-9]|[1-9]` that matches,
returning the month value and the unconsumed input. -/
def matchMonth : List Char → Option (Nat × List Char)
  | '1' :: c :: rest =>
    if '0' ≤ c && c ≤ '2' then some (10 + digitVal c, rest)
    else some (1, c :: rest)
  | '0' :: c :: rest =>
    if '1' ≤ c && c ≤ '9' then some (digitVal c, rest) else none
  | c :: rest => if '1' ≤ c && c ≤ '9' then some (digitVal c, rest) else none
  | [] => none

/-- `%d`: first alternative of `3[01]|[12]\d|0[1-9]|[1-9]` that
matches. -/
def matchDay : List Char → Option (Nat × List Char)
  | '3' :: c :: rest =>
    if c == '0' || c == '1' then some (30 + digitVal c, rest)
    else some (3, c :: rest)
  | '1' :: c :: rest =>
    if c.isDigit then some (10 + digitVal c, rest) else some (1, c :: rest)
  | '2' :: c :: rest =>
    if c.isDigit then some (20 + digitVal c, rest) else some (2, c :: rest)
  | '0' :: c :: rest =>
    if '1' ≤ c && c ≤ '9' then some (digitVal c, rest) else none
  | c :: rest => if '1' ≤ c && c ≤ '9' then some (digitVal c, rest) else none
  | [] => none

def yearOf (a b c d : Char) : Nat :=
  1000 * digitVal a + 100 * digitVal b + 10 * digitVal c + digitVal d

/-- `datetime.strptime(tok, "%Y-%m-%d")` on a single token: four
digits, `-`, month, `-`, day, end of input, then calendar
validation. -/
def parseDashedToken (cs : List Char) : Option DateYMD :=
  match cs with
  | a :: b :: c :: d :: '-' :: rest =>
    if a.isDigit && b.isDigit && c.isDigit && d.isDigit then
      match matchMonth rest with
      | some (m, '-' :: rest2) =>
        match matchDay rest2 with
        | some (dy, []) => mkDate (yearOf a b c d) m dy
        | _ => none
      | _ => none
    else none
  | _ => none

/-- Pair of digits accepted by `%m` when it must consume both. -/
def twoDigitMonthOk (m1 m2 : Char) : Bool :=
  (m1 == '1' && ('0' ≤ m2 && m2 ≤ '2')) || (m1 == '0' && ('1' ≤ m2 && m2 ≤ '9'))

/-- Pair of digits accepted by `%d` when it must consume both. -/
def twoDigitDayOk (d1 d2 : Char) : Bool :=
  (d1 == '3' && (d2 == '0' || d2 == '1')) ||
  ((d1 == '1' || d1 == '2') && d2.isDigit) ||
  (d1 == '0' && ('1' ≤ d2 && d2 ≤ '9'))

/-- `datetime.strptime(s, "%Y%m%d")` on an 8-digit string: the match
consumes all eight characters iff month and day each take two digits
(otherwise `_strptime` raises on unconverted data). -/
def parseEightDigits (cs : List Char) : Option DateYMD :=
  match cs with
  | [a, b, c, d, m1, m2, d1, d2] =>
    if a.isDigit && b.isDigit && c.isDigit && d.isDigit &&
        twoDigitMonthOk m1 m2 && twoDigitDayOk d1 d2 then
      mkDate (yearOf a b c d) (10 * digitVal m1 + digitVal m2)
        (10 * digitVal d1 + digitVal d2)
    else none
  | _ => none

/-- Zero-padded two-digit rendering (`%m`, `%d`). -/
def pad2 (n : Nat) : String := if n < 10 then "0" ++ toString n else toString n

/-- `date_obj.strftime("%Y-%m-%d")` (glibc `%Y` prints the year
without padding; all dates here have four-digit years). -/
def formatStart (dt : DateYMD) : String :=
  toString dt.y ++ "-" ++ pad2 dt.m ++ "-" ++ pad2 dt.d

/-- `format_pub_date` (lines 550-569): returns the `"start"` value of
the Notion date dict, or `none` where the Python returns `None`. -/
def format_pub_date (dateStr : String) : Option String :=
  if dateStr = "" then none
  else
    let t := pyStrip dateStr.data
    let dt : Option DateYMD :=
      if t.contains '-' then (firstTok t).bind parseDashedToken
      else if t.length == 8 && t.all Char.isDigit then parseEightDigits t
      else (firstTok t).bind parseDashedToken
    dt.map formatStart

/-! ## Database-id normalization (`extract_notion_database_id`, lines 226-242)

`re.search(r'([a-f0-9]{32}|[a-f0-9]{8}-[a-f0-9]{4}-[a-f0-9]{4}-[a-f0-9]{4}-[a-f0-9]{12})', s)`:
leftmost match, the 32-hex alternative tried before the UUID one
(they can never both match at the same position, since a 32-hex match
has a hex character where the UUID requires a hyphen). -/

/-- Lowercase-hex character class `[a-f0-9]`. -/
def isHexc (c : Char) : Bool := c.isDigit || ('a' ≤ c && c ≤ 'f')

/-- Match `[a-f0-9]{32}` at the start of the input. -/
def matchHex32 (cs : List Char) : Option (List Char) :=
  let pre := cs.take 32
  if pre.length == 32 && pre.all isHexc then some pre else none

/-- Match `n` hex characters at the start, returning them and the rest. -/
def takeHex (n : Nat) (cs : List Char) : Option (List Char × List Char) :=
  let pre := cs.take n
  if pre.length == n && pre.all isHexc then some (pre, cs.drop n) else none

/-- Match the hyphenated UUID alternative
`[a-f0-9]{8}-[a-f0-9]{4}-[a-f0-9]{4}-[a-f0-9]{4}-[a-f0-9]{12}`
at the start of the input. -/
def matchUuid (cs : List Char) : Option (List Char) :=
  match takeHex 8 cs with
  | some (s1, '-' :: r1) =>
    match takeHex 4 r1 with
    | some (s2, '-' :: r2) =>
      match takeHex 4 r2 with
      | some (s3, '-' :: r3) =>
        match takeHex 4 r3 with
        | some (s4, '-' :: r4) =>
          match takeHex 12 r4 with
          | some (s5, _) =>
            some (s1 ++ '-' :: s2 ++ '-' :: s3 ++ '-' :: s4 ++ '-' :: s5)
          | none => none
        | _ => none
      | _ => none
    | _ => none
  | _ => none

/-- `re.search`: scan positions left to right, at each position try the
32-hex alternative, then the UUID alternative. -/
def findId : List Char → Option (List Char)
  | [] => none
  | c :: rest =>
    match matchHex32 (c :: rest) with
    | some m => some m
    | none =>
      match matchUuid (c :: rest) with
      | some m => some m
      | none => findId rest

/-- The URL test of the source: `"notion.site" in db_id or "notion.so" in db_id`. -/
def urlish (t : List Char) : Bool :=
  infixList "notion.site".data t || infixList "notion.so".data t

/-- `extract_notion_database_id` (lines 226-242). -/
def extract_notion_database_id (s : String) : String :=
  if s = "" then ""
  else
    let t := pyStrip s.data
    let t2 :=
      if urlish t then
        match findId t with
        | some m => m
        | none => t
      else t
    String.mk (t2.filter (fun c => !(c == '-')))

/-! ## Canonical book records

`search_books` and `get_book_info` both build book dicts with exactly
these nine keys; `BookRec` is that dict's shape and `bookToDict` its
literal construction, so `save_to_notion`'s `book_info.get(...)` calls
can be modelled faithfully on the association list. -/

structure BookRec where
  title : String
  author : String
  publisher : String
  pub_date : String
  cover_image : String
  isbn : String
  isbn13 : String
  link : String
  description : String
deriving DecidableEq, Repr

/-- The book dict literal built at lines 319-329 / 346-356 / 525-535. -/
def bookToDict (b : BookRec) : Dict :=
  [("title", b.title), ("author", b.author), ("publisher", b.publisher),
   ("pub_date", b.pub_date), ("cover_image", b.cover_image),
   ("isbn", b.isbn), ("isbn13", b.isbn13), ("link", b.link),
   ("description", b.description)]

/-- Mapping one decoded catalog item to a book record
(`item.get("title", "")` etc.). -/
def toBookRecord (item : Dict) : BookRec :=
  { title := dictGetD item "title" ""
    author := dictGetD item "author" ""
    publisher := dictGetD item "publisher" ""
    pub_date := dictGetD item "pubDate" ""
    cover_image := dictGetD item "cover" ""
    isbn := dictGetD item "isbn" ""
    isbn13 := dictGetD item "isbn13" ""
    link := dictGetD item "link" ""
    description := dictGetD item "description" "" }

/-! ## XML decoding (the fallback path, lines 304-315 etc.)

An `<item>` element is its list of child elements; each child has a
tag (possibly namespace-qualified) and an optional text. -/

structure XmlChild where
  tag : String
  text : Option String
deriving DecidableEq, Repr

abbrev XmlItem := List XmlChild

/-- `tag.split('}')[1]` when the tag contains `'}'`
(namespace-prefix stripping), else the tag itself. -/
def localTag (tag : String) : String :=
  if tag.data.contains '}' then String.mk ((splitAtChar '}' tag.data).getD 1 [])
  else tag

/-- The per-item dict: `item_dict[tag] = child.text if child.text else ""`. -/
def itemDict (it : XmlItem) : Dict :=
  it.map (fun c => (localTag c.tag, c.text.getD ""))

/-- One `<item>`'s contribution: dropped when its dict is empty
(`if item_dict: items.append(item_dict)`). -/
def itemRecord (it : XmlItem) : Option Dict :=
  let d := itemDict it
  if d.isEmpty then none else some d

/-- Decoded record list of an XML response body. -/
def xmlDecodeItems (its : List XmlItem) : List Dict :=
  its.filterMap itemRecord

/-! ## HTTP layer model

A response is characterized by the three observations the client makes
of it: whether transport succeeded (`raise_for_status` and the request
itself), what `json.loads` of the (JSONP-stripped) body yields, and
what `ET.fromstring` yields.  `JsonData` holds exactly the parts of a
parsed JSON body the client reads. -/

structure JsonData where
  hasErrorCode : Bool
  errorMessage : Option String
  item : Option (List Dict)
  hasOtherKeys : Bool
deriving DecidableEq, Repr

structure HttpResponse where
  ok : Bool
  jsonParse : Option JsonData
  xmlParse : Option (List XmlItem)
deriving DecidableEq, Repr

/-- The error-message classification: `'금지' in error_msg or '금지된' in error_msg`. -/
def forbiddenMsg (msg : String) : Bool :=
  pyIn "금지" msg || pyIn "금지된" msg

/-- Query parameters of an `ItemSearch.aspx` request (lines 262-272). -/
structure SearchParams where
  ttbkey : String
  query : String
  queryType : String
  maxResults : Nat
  start : Nat
  searchTarget : String
  output : String
  version : String
  cover : String
deriving DecidableEq, Repr

def mkSearchParams (key kw : String) (maxR : Nat) : SearchParams :=
  ⟨key, kw, "Keyword", maxR, 1, "Book", "js", "20131101", "Big"⟩

/-- Query parameters of an `ItemLookUp.aspx` request (lines 418-425). -/
structure LookupParams where
  ttbkey : String
  itemIdType : String
  itemId : String
  output : String
  version : String
  cover : String
deriving DecidableEq, Repr

def mkLookupParams (key isbn : String) : LookupParams :=
  ⟨key, "ISBN", isbn, "js", "20131101", "Big"⟩

/-- Exit classification of `search_books`; every constructor except
`ok` corresponds to a `return []` on a distinct message path:
`configError` = line 257, `apiError` = line 335, `noItems` = line 339,
`xmlError` = lines 332/396, `transportError` = line 404. -/
inductive SearchOutcome where
  | ok (books : List BookRec)
  | configError
  | apiError (msg : String)
  | noItems
  | xmlError
  | transportError
deriving DecidableEq, Repr

/-- The XML-retry block of `search_books` (re-issue with
`output = "xml"`, parse `<item>` elements, map to book dicts). -/
def searchXmlRetry (p1 p2 : SearchParams) (r2 : HttpResponse) :
    SearchOutcome × List SearchParams :=
  if r2.ok then
    match r2.xmlParse with
    | some its =>
      (SearchOutcome.ok ((xmlDecodeItems its).map toBookRecord), [p1, p2])
    | none => (SearchOutcome.xmlError, [p1, p2])
  else (SearchOutcome.transportError, [p1, p2])

/-- `search_books` (lines 254-408).  `net n` is the response to the
`n`-th HTTP request issued; the returned list is the trace of issued
requests, so its length is the number of HTTP calls. -/
def search_books (keyword apiKey : String) (maxResults : Nat)
    (net : Nat → HttpResponse) : SearchOutcome × List SearchParams :=
  if apiKey = "" then (SearchOutcome.configError, [])
  else if (net 0).ok then
    match (net 0).jsonParse with
    | some data =>
      if data.hasErrorCode || data.errorMessage.isSome then
        if forbiddenMsg (data.errorMessage.getD "알 수 없는 오류") then
          searchXmlRetry (mkSearchParams apiKey keyword maxResults)
            { mkSearchParams apiKey keyword maxResults with output := "xml" }
            (net 1)
        else
          (SearchOutcome.apiError (data.errorMessage.getD "알 수 없는 오류"),
           [mkSearchParams apiKey keyword maxResults])
      else
        match data.item with
        | none => (SearchOutcome.noItems, [mkSearchParams apiKey keyword maxResults])
        | some its =>
          (SearchOutcome.ok (its.map toBookRecord),
           [mkSearchParams apiKey keyword maxResults])
    | none =>
      searchXmlRetry (mkSearchParams apiKey keyword maxResults)
        { mkSearchParams apiKey keyword maxResults with output := "xml" }
        (net 1)
  else (SearchOutcome.transportError, [mkSearchParams apiKey keyword maxResults])

/-- Exit classification of `get_book_info`; every constructor except
`found` corresponds to a `return None` on a distinct message path:
`configError` = line 413, `apiError` = lines 476/511, `xmlError` =
lines 473/501, `emptyResponse` = line 506, `noItemField` = line 515,
`notFound` = line 520, `transportError` = line 540. -/
inductive LookupOutcome where
  | found (b : BookRec)
  | configError
  | apiError (msg : String)
  | xmlError
  | emptyResponse
  | noItemField
  | notFound
  | transportError
deriving DecidableEq, Repr

/-- The dict `{'item': items}` built from a decoded XML response
(lines 460-471). -/
def xmlDataView (its : List XmlItem) : JsonData :=
  { hasErrorCode := false, errorMessage := none,
    item := some (xmlDecodeItems its), hasOtherKeys := false }

/-- The response-structure checks of `get_book_info` after decoding
(lines 504-537): empty dict, error fields, missing `item`, empty item
list, else the first item. -/
def lookupPost (v : JsonData) : LookupOutcome :=
  if !v.hasErrorCode && v.errorMessage.isNone && v.item.isNone && !v.hasOtherKeys then
    LookupOutcome.emptyResponse
  else if v.hasErrorCode || v.errorMessage.isSome then
    LookupOutcome.apiError (v.errorMessage.getD "알 수 없는 오류")
  else
    match v.item with
    | none => LookupOutcome.noItemField
    | some [] => LookupOutcome.notFound
    | some (x :: _) => LookupOutcome.found (toBookRecord x)

/-- The XML-retry block of `get_book_info`. -/
def lookupXmlRetry (p1 p2 : LookupParams) (r2 : HttpResponse) :
    LookupOutcome × List LookupParams :=
  if r2.ok then
    match r2.xmlParse with
    | some its => (lookupPost (xmlDataView its), [p1, p2])
    | none => (LookupOutcome.xmlError, [p1, p2])
  else (LookupOutcome.transportError, [p1, p2])

/-- `get_book_info` (lines 410-544), with the same oracle-and-trace
convention as `search_books`. -/
def get_book_info (isbn apiKey : String) (net : Nat → HttpResponse) :
    LookupOutcome × List LookupParams :=
  if apiKey = "" then (LookupOutcome.configError, [])
  else if (net 0).ok then
    match (net 0).jsonParse with
    | some d =>
      if d.hasErrorCode || d.errorMessage.isSome then
        if forbiddenMsg (d.errorMessage.getD "알 수 없는 오류") then
          lookupXmlRetry (mkLookupParams apiKey isbn)
            { mkLookupParams apiKey isbn with output := "xml" } (net 1)
        else
          (LookupOutcome.apiError (d.errorMessage.getD "알 수 없는 오류"),
           [mkLookupParams apiKey isbn])
      else (lookupPost d, [mkLookupParams apiKey isbn])
    | none =>
      lookupXmlRetry (mkLookupParams apiKey isbn)
        { mkLookupParams apiKey isbn with output := "xml" } (net 1)
  else (LookupOutcome.transportError, [mkLookupParams apiKey isbn])

/-! ## Notion payload and save (`save_to_notion`, lines 571-687) -/

/-- The `properties` dict: `title` is the content of the always-set
`제목` entry; each optional entry is `none` when its `if` guard was
false (the key entirely omitted). -/
structure NotionProperties where
  title : String
  author : Option String
  publisher : Option String
  pubDate : Option String
  isbn : Option String
  cover : Option String
deriving DecidableEq, Repr

/-- The property-building block of `save_to_notion` (lines 582-646). -/
def save_props (book : Dict) : NotionProperties :=
  { title := dictGetD book "title" "제목 없음"
    author :=
      if pyTruthy (dictGet book "author") then some ((dictGet book "author").getD "")
      else none
    publisher :=
      if pyTruthy (dictGet book "publisher") then some ((dictGet book "publisher").getD "")
      else none
    pubDate := format_pub_date (dictGetD book "pub_date" "")
    isbn :=
      let v := pyOr (dictGet book "isbn13") (dictGetD book "isbn" "")
      if v != "" then some v else none
    cover :=
      let c := dictGetD book "cover_image" ""
      if c != "" then some c else none }

/-- Calls `save_to_notion` can issue against the Notion API. -/
inductive NotionCall where
  | create (props : NotionProperties) (dbId : String)
  | appendChildren (pageId : String) (content : String)
deriving DecidableEq, Repr

/-- Oracle for the two Notion API calls: the page id returned by
`pages.create` (or the exception it raises), and the outcome of
`blocks.children.append`. -/
structure NotionBehavior where
  createResult : Except String String
  appendResult : Except String Unit
deriving Repr

/-- `save_to_notion` (lines 571-687): the returned `Bool` is the
function's return value, the list is the trace of Notion API calls
issued.  Both calls sit in one `try`; an exception from either lands
in the `except` block, which returns `False`. -/
def save_to_notion (book : Dict) (apiKey dbId : String)
    (beh : NotionBehavior) : Bool × List NotionCall :=
  if apiKey = "" || dbId = "" then (false, [])
  else
    let cleanId := extract_notion_database_id dbId
    let props := save_props book
    match beh.createResult with
    | Except.error _ => (false, [NotionCall.create props cleanId])
    | Except.ok pageId =>
      if pyTruthy (dictGet book "description") then
        match beh.appendResult with
        | Except.error _ =>
          (false, [NotionCall.create props cleanId,
                   NotionCall.appendChildren pageId ((dictGet book "description").getD "")])
        | Except.ok _ =>
          (true, [NotionCall.create props cleanId,
                  NotionCall.appendChildren pageId ((dictGet book "description").getD "")])
      else (true, [NotionCall.create props cleanId])

/-! ## Helper lemmas -/

theorem mkDate_valid {y m d : Nat} {dt : DateYMD} (h : mkDate y m d = some dt) :
    validDate dt.y dt.m dt.d = true := by
  unfold mkDate at h
  split at h
  · cases h
    assumption
  · cases h

theorem parseDashedToken_valid {cs : List Char} {dt : DateYMD}
    (h : parseDashedToken cs = some dt) : validDate dt.y dt.m dt.d = true := by
  unfold parseDashedToken at h
  repeat' split at h
  all_goals first
    | exact mkDate_valid h
    | exact Option.noConfusion h

theorem parseEightDigits_valid {cs : List Char} {dt : DateYMD}
    (h : parseEightDigits cs = some dt) : validDate dt.y dt.m dt.d = true := by
  unfold parseEightDigits at h
  repeat' split at h
  all_goals first
    | exact mkDate_valid h
    | exact Option.noConfusion h

theorem format_pub_date_sound {s : String} {out : String}
    (h : format_pub_date s = some out) :
    ∃ y m d, validDate y m d = true ∧ out = formatStart ⟨y, m, d⟩ := by
  unfold format_pub_date at h
  split at h
  · exact Option.noConfusion h
  · rw [Option.map_eq_some'] at h
    obtain ⟨dt, hdt, hout⟩ := h
    refine ⟨dt.y, dt.m, dt.d, ?_, ?_⟩
    · split at hdt
      · obtain ⟨tok, _, hp⟩ := Option.bind_eq_some.mp hdt
        exact parseDashedToken_valid hp
      · split at hdt
        · exact parseEightDigits_valid hdt
        · obtain ⟨tok, _, hp⟩ := Option.bind_eq_some.mp hdt
          exact parseDashedToken_valid hp
    · subst hout
      rfl

/-! ## Claims -/

/-- C4 counterexample: the claim says any input not of the shapes
`YYYY-MM-DD` (optionally with a time suffix) or `YYYYMMDD` yields
`ok=false`, but `datetime.strptime`'s `%m`/`%d` also accept
single-digit month and day, so `"2020-5-1"` normalizes successfully. -/
theorem C4_counterexample : format_pub_date "2020-5-1" = some "2020-05-01" := by
  decide

/-- C4 (amended): `"2020-05-01"`, `"20200501"` and
`"2020-05-01 12:00:00"` normalize to the same date, `"not-a-date"`
and syntactically invalid calendar dates yield `none` (never raising,
the function being total), the `PublishedDate` payload entry is
exactly the result of normalization (set only on success), and every
successful normalization is of a valid calendar date — but month and
day may also be single digits, which are zero-padded in the output. -/
theorem C4_theorem :
    format_pub_date "2020-05-01" = some "2020-05-01" ∧
    format_pub_date "20200501" = some "2020-05-01" ∧
    format_pub_date "2020-05-01 12:00:00" = some "2020-05-01" ∧
    format_pub_date "not-a-date" = none ∧
    format_pub_date "2020-2-3" = some "2020-02-03" ∧
    format_pub_date "2020-02-30" = none ∧
    format_pub_date "2020-13-01" = none ∧
    format_pub_date "20200230" = none ∧
    (∀ book : Dict, (save_props book).pubDate = format_pub_date (dictGetD book "pub_date" "")) ∧
    (∀ s out, format_pub_date s = some out →
      ∃ y m d, validDate y m d = true ∧ out = formatStart ⟨y, m, d⟩) := by
  refine ⟨by decide, by decide, by decide, by decide, by decide, by decide,
    by decide, by decide, fun _ => rfl, fun s out h => format_pub_date_sound h⟩

/-- C4 witness: the soundness conjunct applied at `"20200501"`. -/
theorem C4_witness :
    ∃ y m d, validDate y m d = true ∧ "2020-05-01" = formatStart ⟨y, m, d⟩ :=
  C4_theorem.2.2.2.2.2.2.2.2.2 "20200501" "2020-05-01" (by decide)

/-- C5 counterexample: a record whose `title` is the empty string gets
an empty-string `제목` entry, not the `"제목 없음"` placeholder —
`book_info.get("title", "제목 없음")` only falls back when the key is
missing, and the pipeline's book dicts always carry the key. -/
theorem C5_counterexample :
    (save_props (bookToDict ⟨"", "A", "P", "", "", "", "", "", ""⟩)).title = "" ∧
    ¬ (save_props (bookToDict ⟨"", "A", "P", "", "", "", "", "", ""⟩)).title = "제목 없음" := by
  decide

/-- C5 (amended): for every book record the payload has a `Title`
entry whose content is `record.title` verbatim (the empty string when
the title is empty; the placeholder default never fires because the
title key is always present), and an `Author` (resp. `Publisher`)
entry exactly when the corresponding field is non-empty, never as an
empty string. -/
theorem C5_theorem (b : BookRec) :
    (save_props (bookToDict b)).title = b.title ∧
    (save_props (bookToDict b)).author = (if b.author = "" then none else some b.author) ∧
    (save_props (bookToDict b)).publisher =
      (if b.publisher = "" then none else some b.publisher) := by
  refine ⟨rfl, ?_, ?_⟩
  · show (if (b.author != "") = true then some b.author else none) = _
    by_cases h : b.author = "" <;> simp [h]
  · show (if (b.publisher != "") = true then some b.publisher else none) = _
    by_cases h : b.publisher = "" <;> simp [h]

/-- C7: the `ISBN` payload entry is `isbn13` when that is non-empty,
else `isbn` when that is non-empty, else absent. -/
theorem C7_theorem (b : BookRec) :
    (save_props (bookToDict b)).isbn =
      (if b.isbn13 = "" then (if b.isbn = "" then none else some b.isbn)
       else some b.isbn13) := by
  have e : (save_props (bookToDict b)).isbn =
      (if (pyOr (some b.isbn13) b.isbn != "") = true
       then some (pyOr (some b.isbn13) b.isbn) else none) := rfl
  rw [e]
  by_cases h13 : b.isbn13 = "" <;> by_cases h10 : b.isbn = "" <;>
    simp [pyOr, h13, h10]

/-- C9: with an empty API key both `search_books` and `get_book_info`
return the config-error outcome and issue no HTTP request (empty
request trace). -/
theorem C9_theorem (kw isbn : String) (maxR : Nat) (net : Nat → HttpResponse) :
    search_books kw "" maxR net = (SearchOutcome.configError, []) ∧
    get_book_info isbn "" net = (LookupOutcome.configError, []) :=
  ⟨rfl, rfl⟩

/-- C10: in the XML decode path a childless `<item>` contributes no
record (inserting one anywhere leaves the decoded list unchanged),
the decoded list is never longer than the item list, and a concrete
two-item response with one childless item decodes to one record. -/
theorem C10_theorem :
    (∀ pre post : List XmlItem,
      xmlDecodeItems (pre ++ ([] : XmlItem) :: post) = xmlDecodeItems (pre ++ post)) ∧
    (∀ its : List XmlItem, (xmlDecodeItems its).length ≤ its.length) ∧
    xmlDecodeItems [[], [⟨"title", some "T"⟩]] = [[("title", "T")]] := by
  refine ⟨?_, ?_, by decide⟩
  · intro pre post
    simp [xmlDecodeItems, List.filterMap_append, List.filterMap_cons, itemRecord, itemDict]
  · intro its
    exact List.length_filterMap_le _ _

theorem searchXmlRetry_snd (p1 p2 : SearchParams) (r2 : HttpResponse) :
    (searchXmlRetry p1 p2 r2).snd = [p1, p2] := by
  unfold searchXmlRetry
  split
  · split <;> rfl
  · rfl

theorem lookupXmlRetry_snd (p1 p2 : LookupParams) (r2 : HttpResponse) :
    (lookupXmlRetry p1 p2 r2).snd = [p1, p2] := by
  unfold lookupXmlRetry
  split
  · split <;> rfl
  · rfl

theorem search_books_forbidden (kw key : String) (maxR : Nat)
    (net : Nat → HttpResponse) (jd : JsonData) (hkey : key ≠ "")
    (hok : (net 0).ok = true) (hjson : (net 0).jsonParse = some jd)
    (herr : (jd.hasErrorCode || jd.errorMessage.isSome) = true)
    (hforb : forbiddenMsg (jd.errorMessage.getD "알 수 없는 오류") = true) :
    search_books kw key maxR net =
      searchXmlRetry (mkSearchParams key kw maxR)
        { mkSearchParams key kw maxR with output := "xml" } (net 1) := by
  simp [search_books, hkey, hok, hjson, herr, hforb]

theorem get_book_info_forbidden (isbn key : String)
    (net : Nat → HttpResponse) (jd : JsonData) (hkey : key ≠ "")
    (hok : (net 0).ok = true) (hjson : (net 0).jsonParse = some jd)
    (herr : (jd.hasErrorCode || jd.errorMessage.isSome) = true)
    (hforb : forbiddenMsg (jd.errorMessage.getD "알 수 없는 오류") = true) :
    get_book_info isbn key net =
      lookupXmlRetry (mkLookupParams key isbn)
        { mkLookupParams key isbn with output := "xml" } (net 1) := by
  simp [get_book_info, hkey, hok, hjson, herr, hforb]

/-- C2: when the first (JSON) response is an error object whose message
matches the forbidden-format test, both clients issue exactly one
additional request — the same parameters with `output` switched to
`"xml"`, for a trace of exactly two requests — return the records
decoded from the XML body of the second response when it parses, and
surface the XML decode error with no third request when it does not. -/
theorem C2_theorem (kw key isbn : String) (maxR : Nat)
    (net : Nat → HttpResponse) (jd : JsonData) (hkey : key ≠ "")
    (hok : (net 0).ok = true) (hjson : (net 0).jsonParse = some jd)
    (herr : (jd.hasErrorCode || jd.errorMessage.isSome) = true)
    (hforb : forbiddenMsg (jd.errorMessage.getD "알 수 없는 오류") = true) :
    ((search_books kw key maxR net).snd =
        [mkSearchParams key kw maxR,
         { mkSearchParams key kw maxR with output := "xml" }] ∧
      (∀ its, (net 1).ok = true → (net 1).xmlParse = some its →
        (search_books kw key maxR net).fst =
          SearchOutcome.ok ((xmlDecodeItems its).map toBookRecord)) ∧
      ((net 1).ok = true → (net 1).xmlParse = none →
        (search_books kw key maxR net).fst = SearchOutcome.xmlError)) ∧
    ((get_book_info isbn key net).snd =
        [mkLookupParams key isbn,
         { mkLookupParams key isbn with output := "xml" }] ∧
      (∀ its, (net 1).ok = true → (net 1).xmlParse = some its →
        (get_book_info isbn key net).fst = lookupPost (xmlDataView its)) ∧
      ((net 1).ok = true → (net 1).xmlParse = none →
        (get_book_info isbn key net).fst = LookupOutcome.xmlError)) := by
  have hs := search_books_forbidden kw key maxR net jd hkey hok hjson herr hforb
  have hl := get_book_info_forbidden isbn key net jd hkey hok hjson herr hforb
  refine ⟨⟨?_, ?_, ?_⟩, ?_, ?_, ?_⟩
  · rw [hs]
    exact searchXmlRetry_snd _ _ _
  · intro its h2ok h2xml
    rw [hs]
    simp [searchXmlRetry, h2ok, h2xml]
  · intro h2ok h2xml
    rw [hs]
    simp [searchXmlRetry, h2ok, h2xml]
  · rw [hl]
    exact lookupXmlRetry_snd _ _ _
  · intro its h2ok h2xml
    rw [hl]
    simp [lookupXmlRetry, h2ok, h2xml]
  · intro h2ok h2xml
    rw [hl]
    simp [lookupXmlRetry, h2ok, h2xml]

def jdForbidden : JsonData := ⟨true, some "금지된 출력 형식입니다", none, false⟩

def netForbidden : Nat → HttpResponse := fun n =>
  if n == 0 then ⟨true, some jdForbidden, none⟩
  else ⟨true, none, some [[⟨"title", some "T"⟩]]⟩

/-- C2 witness: the theorem applied to a concrete forbidden-format
first response followed by a well-formed XML response. -/
theorem C2_witness :
    (search_books "kw" "key" 10 netForbidden).snd =
      [mkSearchParams "key" "kw" 10,
       { mkSearchParams "key" "kw" 10 with output := "xml" }] ∧
    (search_books "kw" "key" 10 netForbidden).fst =
      SearchOutcome.ok ((xmlDecodeItems [[⟨"title", some "T"⟩]]).map toBookRecord) ∧
    (get_book_info "123" "key" netForbidden).fst =
      lookupPost (xmlDataView [[⟨"title", some "T"⟩]]) := by
  have h := C2_theorem "kw" "key" "123" 10 netForbidden jdForbidden
    (by decide) (by decide) (by decide) (by decide) (by decide)
  exact ⟨h.1.1, h.1.2.1 _ (by decide) (by decide), h.2.2.1 _ (by decide) (by decide)⟩

/-- C3: a JSON error response whose message does not match the
forbidden-format test is surfaced immediately as the API-error outcome
with a one-request trace — no XML retry is issued. -/
theorem C3_theorem (kw key isbn : String) (maxR : Nat)
    (net : Nat → HttpResponse) (jd : JsonData) (hkey : key ≠ "")
    (hok : (net 0).ok = true) (hjson : (net 0).jsonParse = some jd)
    (herr : (jd.hasErrorCode || jd.errorMessage.isSome) = true)
    (hforb : forbiddenMsg (jd.errorMessage.getD "알 수 없는 오류") = false) :
    search_books kw key maxR net =
      (SearchOutcome.apiError (jd.errorMessage.getD "알 수 없는 오류"),
       [mkSearchParams key kw maxR]) ∧
    get_book_info isbn key net =
      (LookupOutcome.apiError (jd.errorMessage.getD "알 수 없는 오류"),
       [mkLookupParams key isbn]) := by
  constructor
  · simp [search_books, hkey, hok, hjson, herr, hforb]
  · simp [get_book_info, hkey, hok, hjson, herr, hforb]

def jdDenied : JsonData := ⟨true, some "권한이 없습니다", none, false⟩

def netDenied : Nat → HttpResponse := fun _ => ⟨true, some jdDenied, none⟩

/-- C3 witness: the theorem applied to a concrete non-matching error
response. -/
theorem C3_witness :
    search_books "kw" "key" 10 netDenied =
      (SearchOutcome.apiError "권한이 없습니다", [mkSearchParams "key" "kw" 10]) ∧
    get_book_info "123" "key" netDenied =
      (LookupOutcome.apiError "권한이 없습니다", [mkLookupParams "key" "123"]) :=
  C3_theorem "kw" "key" "123" 10 netDenied jdDenied
    (by decide) (by decide) (by decide) (by decide) (by decide)

/-- C6: on a decoded response without error fields, an empty `item`
list yields the not-found outcome, a non-empty one yields a record
built from the first item only (the tail is discarded), and under the
same conditions `get_book_info` is exactly this post-decode stage. -/
theorem C6_theorem (v : JsonData) (hec : v.hasErrorCode = false)
    (hem : v.errorMessage = none) :
    (v.item = some [] → lookupPost v = LookupOutcome.notFound) ∧
    (∀ x rest, v.item = some (x :: rest) →
      lookupPost v = LookupOutcome.found (toBookRecord x)) ∧
    (∀ isbn key net, key ≠ "" → (net 0).ok = true →
      (net 0).jsonParse = some v →
      (get_book_info isbn key net).fst = lookupPost v) := by
  refine ⟨?_, ?_, ?_⟩
  · intro hit
    simp [lookupPost, hec, hem, hit]
  · intro x rest hit
    simp [lookupPost, hec, hem, hit]
  · intro isbn key net hkey hok hjson
    simp [get_book_info, hkey, hok, hjson, hec, hem]

def netTwoItems : Nat → HttpResponse := fun _ =>
  ⟨true, some ⟨false, none, some [[("title", "A")], [("title", "B")]], false⟩, none⟩

/-- C6 witness: the theorem applied to a concrete two-item response —
only the first item is used. -/
theorem C6_witness :
    (get_book_info "123" "key" netTwoItems).fst =
      LookupOutcome.found (toBookRecord [("title", "A")]) := by
  have h := C6_theorem ⟨false, none, some [[("title", "A")], [("title", "B")]], false⟩
    (by decide) (by decide)
  rw [h.2.2 "123" "key" netTwoItems (by decide) (by decide) (by decide)]
  exact h.2.1 [("title", "A")] [[("title", "B")]] (by decide)

/-- C1 counterexample: create succeeds, the note append fails, the
record has a non-empty description — and the overall save returns
`False` (failure), where the claim requires it to still report
success. -/
theorem C1_counterexample :
    (save_to_notion (bookToDict ⟨"T", "", "", "", "", "", "", "", "desc"⟩)
      "key" "dbid" ⟨Except.ok "pid", Except.error "boom"⟩).fst = false := by
  decide

/-- C1 (amended): when the create call succeeds and the note-append
call fails (description non-empty), the exception lands in the shared
`except` block and the overall save reports failure (`False`) —
masking the successful create — and no record identifier is ever
returned (the function returns a boolean).  The create is indeed not
rolled back: the trace holds exactly the successful create and the
failed append, no further call. -/
theorem C1_theorem (book : Dict) (key db pid err : String)
    (beh : NotionBehavior) (hkey : key ≠ "") (hdb : db ≠ "")
    (hc : beh.createResult = Except.ok pid)
    (ha : beh.appendResult = Except.error err)
    (hdesc : pyTruthy (dictGet book "description") = true) :
    save_to_notion book key db beh =
      (false,
       [NotionCall.create (save_props book) (extract_notion_database_id db),
        NotionCall.appendChildren pid ((dictGet book "description").getD "")]) := by
  simp [save_to_notion, hkey, hdb, hc, ha, hdesc]

/-- C1 witness: the amended theorem at a concrete record and oracle. -/
theorem C1_witness :
    save_to_notion (bookToDict ⟨"T", "", "", "", "", "", "", "", "desc"⟩)
      "key" "dbid" ⟨Except.ok "pid", Except.error "boom"⟩ =
      (false,
       [NotionCall.create
          (save_props (bookToDict ⟨"T", "", "", "", "", "", "", "", "desc"⟩))
          (extract_notion_database_id "dbid"),
        NotionCall.appendChildren "pid"
          ((dictGet (bookToDict ⟨"T", "", "", "", "", "", "", "", "desc"⟩)
            "description").getD "")]) :=
  C1_theorem _ "key" "dbid" "pid" "boom" _ (by decide) (by decide) rfl rfl (by decide)

/-- C8 counterexample: the claim says a non-URL input is passed
through unchanged apart from hyphen stripping, but the source also
strips surrounding whitespace: `" abc "` (no hyphens) comes back as
`"abc"`, not `" abc "`. -/
theorem C8_counterexample :
    extract_notion_database_id " abc " = "abc" ∧ ("abc" : String) ≠ " abc " := by
  decide

/-- C8 (amended): the result never contains a hyphen; an input that is
not a sharing-link URL is passed through with surrounding whitespace
trimmed and hyphens stripped (never rejected); a URL input containing
an embedded 32-hex or hyphenated-UUID identifier yields that
identifier with hyphens stripped. -/
theorem C8_theorem (s : String) :
    ('-' ∉ (extract_notion_database_id s).data) ∧
    (s ≠ "" → urlish (pyStrip s.data) = false →
      extract_notion_database_id s =
        String.mk ((pyStrip s.data).filter (fun c => !(c == '-')))) ∧
    (∀ m, s ≠ "" → urlish (pyStrip s.data) = true →
      findId (pyStrip s.data) = some m →
      extract_notion_database_id s =
        String.mk (m.filter (fun c => !(c == '-')))) := by
  refine ⟨?_, ?_, ?_⟩
  · unfold extract_notion_database_id
    split
    · simp
    · intro hm
      have := (List.mem_filter.mp hm).2
      simp at this
  · intro hs hurl
    simp [extract_notion_database_id, hs, hurl]
  · intro m hs hurl hfind
    simp [extract_notion_database_id, hs, hurl, hfind]

/-- C8 witness: the amended theorem's URL clause at a concrete
sharing link. -/
theorem C8_witness :
    extract_notion_database_id
        "https://notion.so/0123456789abcdef0123456789abcdef" =
      "0123456789abcdef0123456789abcdef" := by
  have h0 := C8_theorem "https://notion.so/0123456789abcdef0123456789abcdef"
  have h := h0.2.2 ("0123456789abcdef0123456789abcdef".data)
    (by decide) (by decide) (by decide)
  exact h.trans (by decide)

end BookApp
